import Mathlib

/-!
Verification of the training-controller logic of `demo.py` (repository
`bg-triangle`).  The file shallowly embeds the control logic of
`Trainer.train_step` and `Trainer.train_step_3dgs`: pure numeric updates
become functions over `ℚ`, the per-iteration side-effect order becomes an
explicit event trace, and control-channel state is threaded explicitly.
-/

namespace BGTriangle

/-! ## Exponential moving average of the loss

`demo.py` line 145 initialises `self.ema_loss_for_log = 0.0`; line 275
(primitive path) and line 489 (baseline 3dgs point path) both update it by
`self.ema_loss_for_log = 0.4 * loss.item() + 0.6 * self.ema_loss_for_log`.
Float arithmetic is modelled over `ℚ`. -/

/-- EMA update of `Trainer.train_step`, `demo.py` line 275. -/
def emaStepPrim (loss ema : ℚ) : ℚ := 0.4 * loss + 0.6 * ema

/-- EMA update of `Trainer.train_step_3dgs`, `demo.py` line 489. -/
def emaStep3dgs (loss ema : ℚ) : ℚ := 0.4 * loss + 0.6 * ema

/-- Successive EMA values `e_1..e_n` produced from a loss sequence with the
initial value `e_0 = 0` of `demo.py` line 145. -/
def emaSeq (losses : List ℚ) : List ℚ :=
  (losses.scanl (fun e l => emaStepPrim l e) 0).drop 1

/-! ## Composite training loss (primitive path)

`demo.py` lines 259-266: the photometric term is
`torch.nn.functional.mse_loss` when `server["mode"].value < 2` and
`l1_loss` otherwise, and the total is
`torch.lerp(photometric_loss, 1.0 - ssim_value, lambda_dssim)`. -/

/-- `torch.lerp(s, e, w) = s + w * (e - s)`. -/
def torchLerp (s e w : ℚ) : ℚ := s + w * (e - s)

/-- Mean-squared-error loss (`torch.nn.functional.mse_loss`) over images
modelled as flat lists of channel values. -/
def mse_loss (a b : List ℚ) : ℚ :=
  ((a.zipWith (fun x y => (x - y) ^ 2) b).sum) / a.length

/-- L1 loss (`utils.loss_utils.l1_loss`) over images modelled as flat lists
of channel values. -/
def l1_loss (a b : List ℚ) : ℚ :=
  ((a.zipWith (fun x y => |x - y|) b).sum) / a.length

/-- Total loss of `Trainer.train_step`, `demo.py` lines 259-266.  The ssim
value is an input because `ssim` is computed by the external loss engine. -/
def trainLoss (mode : ℕ) (rendered gt : List ℚ) (ssimValue lambdaDssim : ℚ) : ℚ :=
  torchLerp
    (if mode < 2 then mse_loss rendered gt else l1_loss rendered gt)
    (1 - ssimValue) lambdaDssim

/-! ## Learning-rate update argument

`demo.py` lines 227-233: in mode 1 the scheduler is called with the raw
iteration; otherwise it is called only past iteration 15200, with the
shifted argument `iteration - 15000`. -/

/-- The argument passed to `update_learning_rate` at a given iteration, or
`none` when no learning-rate update happens (`demo.py` lines 227-233). -/
def lrUpdateArg (mode iteration : ℕ) : Option ℕ :=
  if mode = 1 then some iteration
  else if iteration > 15200 then some (iteration - 15000) else none

/-! ## Checkpoint restore

`demo.py` lines 132-136 (`Trainer.__init__`): restoring a checkpoint sets
`self.first_iter` to the stored iteration number and, when that number
exceeds 15200, force-advances the representation mode via
`self.bprimitive_object.mode(2)`. -/

structure TrainerInit where
  first_iter : ℕ
  forcedMode : Option ℕ
  deriving DecidableEq, Repr

/-- `Trainer.__init__` checkpoint handling, `demo.py` lines 117 and 132-136.
The checkpoint is `none` or `some storedIteration` (the model parameters are
irrelevant to the control flow modelled here). -/
def trainerInit (checkpoint : Option ℕ) : TrainerInit :=
  match checkpoint with
  | none => { first_iter := 0, forcedMode := none }
  | some n =>
      { first_iter := n
        forcedMode := if n > 15200 then some 2 else none }

/-! ## Mode state machine

`demo.py` lines 202-220 call `self.bprimitive_object.mode(k)` for the mode
value `k` currently on the control channel; the handler returns whether the
transition fired.  `BPrimitiveBezier.mode` itself lives in `model.py`, which
is not part of the source tree. -/

structure ModeSM where
  current : ℕ
  deriving DecidableEq, Repr

/-- Modelled from the spec: `BPrimitiveBezier.mode` of `model.py` is not
under `src/`.  Per the spec (§4.3), transitions are one-directional and
monotonically increasing (0→1→2), and re-entering an already-active state
performs no reconfiguration (idempotence guard); the returned Bool is
whether the transition fired. -/
def modeReq (s : ModeSM) (k : ℕ) : ModeSM × Bool :=
  if s.current < k then ({ current := k }, true) else (s, false)

/-- The internal mode after the per-iteration driver has handed the state
machine the sequence of control-channel mode values `ks`, one per
iteration. -/
def runModes (s : ModeSM) (ks : List ℕ) : ModeSM :=
  ks.foldl (fun s k => (modeReq s k).1) s

/-! ## Render-view selector dispatch

Primitive path: `demo.py` lines 405-451 set `output = None`, run an
`if`/`elif` chain over the selector string, and in the final `else` print
`"Unsupported render type: ..."` leaving `output` as `None`.  Baseline point
path: lines 549-557 handle only `"debug"` and `"GT Image"`, with no `else`
branch; any other selector leaves the local `output` unbound, so the
subsequent `client.scene.set_background_image(output, ...)` raises an
uncaught `NameError`. -/

inductive PrimViewOut where
  | depth | seg | boundary | uvw | rendered | gtImage | normal | depthNormal
  | accumGrad | accumEdge | accumVis | edgeMask
  deriving DecidableEq, Repr

/-- The `if`/`elif` dispatch of `demo.py` lines 405-451: the produced debug
output (`none` models `output = None`) together with whether the
unsupported-selector message was printed. -/
def primViewPublish (rt : String) : Option PrimViewOut × Bool :=
  if rt = "Depth Map" then (some .depth, false)
  else if rt = "Segmentation" then (some .seg, false)
  else if rt = "Colored Boundary Points" then (some .boundary, false)
  else if rt = "Colored UVW" then (some .uvw, false)
  else if rt = "debug" then (some .rendered, false)
  else if rt = "GT Image" then (some .gtImage, false)
  else if rt = "Surface Normal" then (some .normal, false)
  else if rt = "Depth Normal" then (some .depthNormal, false)
  else if rt = "Accumulated Gradient Image" then (some .accumGrad, false)
  else if rt = "Accum_Edge" then (some .accumEdge, false)
  else if rt = "Accum_Vis" then (some .accumVis, false)
  else if rt = "edges" then (some .edgeMask, false)
  else (none, true)

/-- The selector strings handled by the primitive-path dispatch. -/
def primSupported : List String :=
  ["Depth Map", "Segmentation", "Colored Boundary Points", "Colored UVW",
   "debug", "GT Image", "Surface Normal", "Depth Normal",
   "Accumulated Gradient Image", "Accum_Edge", "Accum_Vis", "edges"]

inductive GsViewOut where
  | rendered | gtImage
  deriving DecidableEq, Repr

/-- The dispatch of `demo.py` lines 549-557 in `train_step_3dgs`: the Bool
is whether anything was logged (there is no logging branch), and
`Except.error ()` models the `NameError` from the unbound `output` local
when neither branch matches. -/
def gsViewPublish (rt : String) : Bool × Except Unit GsViewOut :=
  if rt = "debug" then (false, .ok .rendered)
  else if rt = "GT Image" then (false, .ok .gtImage)
  else (false, .error ())

/-! ## Per-iteration event trace of the training-enabled block

`demo.py` lines 244-341 (`if server["button_train_state"]:` in
`Trainer.train_step`): render, loss, `loss.backward()` (line 269), EMA and
progress logging (273-284), `training_report` (286), a checkpoint save
(287-289), densification statistics (293-316, the edge channel only when
`boundary_mode > 0`), the optimizer step guarded by
`server["button_optimize_state"]` and `iteration < iterations` (320-324), a
second checkpoint save (326-328), and finally `densify_and_prune` guarded by
`iteration < densify_until_iter`, `iteration % densification_interval == 0`
and `server["checkbox_split"].value` (331-341), preceded by
`optimizer.zero_grad()` and followed by `training_setup`. -/

inductive Event where
  | backward
  | emaUpdate
  | report
  | save (path : String)
  | statsV3
  | statsV4
  | statsEdge
  | optStep
  | zeroGradNone
  | zeroGrad
  | densify
  | trainingSetup
  deriving DecidableEq, Repr

/-- The checkpoint path `model_path + "/chkpnt" + str(iteration) + ".pth"`
of `demo.py` lines 289 and 328 (relative to `model_path`). -/
def chkpntPath (iteration : ℕ) : String :=
  "/chkpnt" ++ toString iteration ++ ".pth"

/-- The per-iteration inputs of `Trainer.train_step` that drive the control
flow modelled by `trainStepTrace`. -/
structure StepCfg where
  iter : ℕ
  maxIters : ℕ
  mode2Iters : ℕ
  fixIters : ℕ
  densifyUntil : ℕ
  densifyInterval : ℕ
  checkpointIters : List ℕ
  trainEnabled : Bool
  optimizeEnabled : Bool
  boundaryModePos : Bool
  deriving DecidableEq, Repr

/-- True when `Event.save p` for some path `p`. -/
def isSaveEvent : Event → Bool
  | .save _ => true
  | _ => false

/-- The ordered side effects of `demo.py` lines 244-341 for one iteration,
given the value of `server["checkbox_split"].value` at the densification
check.  An iteration with `button_train_state` unset produces none of
them. -/
def trainStepTrace (c : StepCfg) (checkboxSplit : Bool) : List Event :=
  if c.trainEnabled then
    [Event.backward, Event.emaUpdate, Event.report]
      ++ (if c.iter ∈ c.checkpointIters then [Event.save (chkpntPath c.iter)] else [])
      ++ [Event.statsV3, Event.statsV4]
      ++ (if c.boundaryModePos then [Event.statsEdge] else [])
      ++ (if c.optimizeEnabled = true ∧ c.iter < c.maxIters
          then [Event.optStep, Event.zeroGradNone] else [])
      ++ (if c.iter ∈ c.checkpointIters then [Event.save (chkpntPath c.iter)] else [])
      ++ (if c.iter < c.densifyUntil ∧ c.iter % c.densifyInterval = 0 ∧ checkboxSplit = true
          then [Event.zeroGrad, Event.densify, Event.trainingSetup] else [])
  else []

/-- `a` occurs before `b` in `l` (first occurrences compared). -/
def occursBefore (a b : Event) (l : List Event) : Prop :=
  a ∈ l ∧ b ∈ l ∧ l.indexOf a < l.indexOf b

/-! ## Control-channel updates at the top of `train_step`

`demo.py` lines 188-220: at `iteration == mode2_iters` the orchestrator
writes mode value 2 to the control channel (line 190); past `fix_iters` it
forces `server["checkbox_split"].value = False` (lines 195-196); then the
handler for the current mode value runs, and the mode-2 handler also forces
the split checkbox off when its transition fires and `fix_iters < 30000`
(lines 214-220).  The mode-0 and mode-1 handlers do not touch the split
checkbox. -/

structure CtrlOut where
  mode : ℕ
  checkboxSplit : Bool
  sm : ModeSM
  deriving DecidableEq, Repr

/-- The mode value, split checkbox and mode state machine after the
mode-switch section of `Trainer.train_step` (`demo.py` lines 188-220). -/
def controlPhase (c : StepCfg) (modeIn : ℕ) (splitIn : Bool) (sm : ModeSM) : CtrlOut :=
  let m1 := if c.iter = c.mode2Iters then 2 else modeIn
  let s1 := if c.iter > c.fixIters then false else splitIn
  let s2 := if m1 = 2 ∧ (modeReq sm 2).2 = true ∧ c.fixIters < 30000 then false else s1
  let sm2 :=
    if m1 = 0 then (modeReq sm 0).1
    else if m1 = 1 then (modeReq sm 1).1
    else if m1 = 2 then (modeReq sm 2).1
    else sm
  { mode := m1, checkboxSplit := s2, sm := sm2 }

end BGTriangle

namespace BGTriangle

/-! ## Theorems for claims C1, C5, C7, C9 -/

/-- C1 counterexample: the spec's hand-computed EMA sequence for losses
`[1.0, 0.5, 0.25]` is `[0.4, 0.46, 0.376]`, but the recurrence
`e_i = 0.4·L_i + 0.6·e_{i-1}` with `e_0 = 0` gives `e_2 = 0.44`, not
`0.46` (and `e_3 = 0.364`, not `0.376`). -/
theorem ema_example_values_ce :
    emaSeq [1, 0.5, 0.25] ≠ [0.4, 0.46, 0.376] := by
  simp only [emaSeq, emaStepPrim, List.scanl, List.drop]
  intro h
  have h2 := congrArg (fun l => l.get? 1) h
  norm_num at h2

/-- C1 (amended): in both the primitive path and the baseline point path the
EMA of the loss is updated by exactly `e_i = 0.4·L_i + 0.6·e_{i-1}` with
initial value `e_0 = 0`; for the loss sequence `[1.0, 0.5, 0.25]` the
successive EMA values are `[0.4, 0.44, 0.364]`. -/
theorem ema_recurrence :
    (∀ l e : ℚ, emaStepPrim l e = 0.4 * l + 0.6 * e) ∧
    (∀ l e : ℚ, emaStep3dgs l e = emaStepPrim l e) ∧
    emaSeq [1, 0.5, 0.25] = [0.4, 0.44, 0.364] := by
  refine ⟨fun l e => rfl, fun l e => rfl, ?_⟩
  simp only [emaSeq, emaStepPrim, List.scanl, List.drop]
  norm_num

/-- C5: in every training iteration with training enabled, the total loss is
`lerp(photometric, 1 - ssim, λ)` where the photometric term is the
mean-squared-error loss when the mode value is below 2 (Init/Refine) and the
L1 loss when the mode value is 2 (Finalize). -/
theorem loss_mode_selection (mode : ℕ) (rendered gt : List ℚ) (ssimValue lambdaDssim : ℚ) :
    (mode < 2 →
      trainLoss mode rendered gt ssimValue lambdaDssim =
        torchLerp (mse_loss rendered gt) (1 - ssimValue) lambdaDssim) ∧
    (mode = 2 →
      trainLoss mode rendered gt ssimValue lambdaDssim =
        torchLerp (l1_loss rendered gt) (1 - ssimValue) lambdaDssim) := by
  constructor
  · intro h
    simp [trainLoss, h]
  · intro h
    simp [trainLoss, h]

/-- Witness for `loss_mode_selection` at concrete inputs: mode 0 uses the L2
term, mode 2 uses the L1 term. -/
theorem loss_mode_selection_witness :
    trainLoss 0 [1, 0] [0, 0] (1/2) (1/2) =
        torchLerp (mse_loss [1, 0] [0, 0]) (1 - 1/2) (1/2) ∧
    trainLoss 2 [1, 0] [0, 0] (1/2) (1/2) =
        torchLerp (l1_loss [1, 0] [0, 0]) (1 - 1/2) (1/2) :=
  ⟨(loss_mode_selection 0 [1, 0] [0, 0] (1/2) (1/2)).1 (by norm_num),
   (loss_mode_selection 2 [1, 0] [0, 0] (1/2) (1/2)).2 rfl⟩

/-- C7: outside mode 1 (i.e. after the transition that redefines iteration
zero), every learning-rate update that occurs is computed at the shifted
iteration `iteration - 15000`, which is strictly below the raw global
iteration. -/
theorem lr_shifted_origin (mode iteration e : ℕ) (hm : mode ≠ 1)
    (h : lrUpdateArg mode iteration = some e) :
    e = iteration - 15000 ∧ e < iteration := by
  unfold lrUpdateArg at h
  rw [if_neg hm] at h
  by_cases hi : iteration > 15200
  · rw [if_pos hi] at h
    refine ⟨(Option.some_injective _ h).symm, ?_⟩
    rw [← (Option.some_injective _ h)]
    omega
  · rw [if_neg hi] at h
    exact absurd h (by simp)

/-- Witness for `lr_shifted_origin`: in mode 2 at iteration 15300, the
scheduler argument is `300 = 15300 - 15000 < 15300`. -/
theorem lr_shifted_origin_witness :
    (300 : ℕ) = 15300 - 15000 ∧ (300 : ℕ) < 15300 :=
  lr_shifted_origin 2 15300 300 (by decide) (by decide)

/-- C9: restoring from a checkpoint sets the starting iteration to the
stored iteration number; the mode is force-advanced to Finalize (2) exactly
when that number exceeds 15200. -/
theorem checkpoint_restore (n : ℕ) :
    (trainerInit (some n)).first_iter = n ∧
    (n > 15200 → (trainerInit (some n)).forcedMode = some 2) ∧
    (¬ n > 15200 → (trainerInit (some n)).forcedMode = none) := by
  refine ⟨rfl, ?_, ?_⟩
  · intro h
    simp [trainerInit, h]
  · intro h
    simp [trainerInit, h]

/-- Witness for `checkpoint_restore` at the stored iterations 15300 and
100: the first forces Finalize, the second does not. -/
theorem checkpoint_restore_witness :
    (trainerInit (some 15300)).forcedMode = some 2 ∧
    (trainerInit (some 100)).forcedMode = none ∧
    (trainerInit (some 15300)).first_iter = 15300 :=
  ⟨(checkpoint_restore 15300).2.1 (by decide),
   (checkpoint_restore 100).2.2 (by decide),
   (checkpoint_restore 15300).1⟩

/-- Helper: a single mode request never decreases the internal mode. -/
theorem modeReq_le (s : ModeSM) (k : ℕ) : s.current ≤ (modeReq s k).1.current := by
  unfold modeReq
  split
  · exact Nat.le_of_lt (by assumption)
  · exact Nat.le_refl _

/-- Helper: a request bounded by 2 keeps a Finalize-mode machine fixed. -/
theorem modeReq_eq_of_finalize (s : ModeSM) (k : ℕ) (hk : k ≤ 2)
    (hs : s.current = 2) : (modeReq s k).1 = s := by
  unfold modeReq
  rw [if_neg]
  omega

/-- C4: the training mode is monotonically non-decreasing over any sequence
of control-channel mode requests, and once the mode equals Finalize (2) no
subsequent iteration observes Init (0) or Refine (1) as long as requests
stay in the state set `{0, 1, 2}`. -/
theorem mode_monotone (s : ModeSM) (ks : List ℕ) :
    s.current ≤ (runModes s ks).current ∧
    ((∀ k ∈ ks, k ≤ 2) → s.current = 2 → (runModes s ks).current = 2) := by
  induction ks generalizing s with
  | nil => exact ⟨Nat.le_refl _, fun _ h => h⟩
  | cons k ks ih =>
    refine ⟨?_, ?_⟩
    · exact Nat.le_trans (modeReq_le s k) (ih (modeReq s k).1).1
    · intro hb hs
      have hmem : k ≤ 2 := hb k (List.mem_cons_self k ks)
      have hfix := modeReq_eq_of_finalize s k hmem hs
      show (runModes (modeReq s k).1 ks).current = 2
      rw [hfix]
      exact (ih s).2 (fun j hj => hb j (List.mem_cons_of_mem k hj)) hs

/-- Witness for `mode_monotone`: starting in Finalize, the request sequence
`[0, 1, 2]` leaves the mode at 2 (and monotonicity holds there). -/
theorem mode_monotone_witness :
    (⟨2⟩ : ModeSM).current ≤ (runModes ⟨2⟩ [0, 1, 2]).current ∧
    (runModes (⟨2⟩ : ModeSM) [0, 1, 2]).current = 2 :=
  ⟨(mode_monotone ⟨2⟩ [0, 1, 2]).1,
   (mode_monotone ⟨2⟩ [0, 1, 2]).2 (by decide) rfl⟩

/-- C6 counterexample: in the baseline point path, the unsupported selector
`"Depth Map"` is not logged and produces an uncaught error (the unbound
`output` local), aborting training rather than being a logged no-op. -/
theorem unsupported_selector_ce :
    gsViewPublish "Depth Map" = (false, Except.error ()) := by
  rfl

/-- C6 (amended): for every selector outside the supported set, the
primitive path logs the unsupported selector and produces no debug output
for that frame; the baseline point path, in contrast, logs nothing and
raises an uncaught error (unbound `output`), aborting training. -/
theorem unsupported_selector_behavior (rt : String) :
    (rt ∉ primSupported → primViewPublish rt = (none, true)) ∧
    (rt ≠ "debug" → rt ≠ "GT Image" → gsViewPublish rt = (false, Except.error ())) := by
  constructor
  · intro h
    simp only [primSupported, List.mem_cons, List.not_mem_nil, or_false, not_or] at h
    obtain ⟨h1, h2, h3, h4, h5, h6, h7, h8, h9, h10, h11, h12⟩ := h
    simp [primViewPublish, h1, h2, h3, h4, h5, h6, h7, h8, h9, h10, h11, h12]
  · intro h1 h2
    simp [gsViewPublish, h1, h2]

/-- Witness for `unsupported_selector_behavior` at the concrete selector
`"Bogus"`. -/
theorem unsupported_selector_behavior_witness :
    primViewPublish "Bogus" = (none, true) ∧
    gsViewPublish "Bogus" = (false, Except.error ()) :=
  ⟨(unsupported_selector_behavior "Bogus").1 (by decide),
   (unsupported_selector_behavior "Bogus").2 (by decide) (by decide)⟩

/-- Helper: membership in a conditionally present trace segment. -/
theorem mem_if_nil {α : Type} (a : α) (P : Prop) [Decidable P] (l : List α) :
    (a ∈ if P then l else []) ↔ P ∧ a ∈ l := by
  split_ifs with h <;> simp [h]

/-- Helper: the optimizer step appears in the iteration's trace exactly when
training is enabled, the optimizer checkbox is enabled and the iteration is
strictly below the configured total. -/
theorem optStep_mem (c : StepCfg) (checkboxSplit : Bool) :
    Event.optStep ∈ trainStepTrace c checkboxSplit ↔
      (c.trainEnabled = true ∧ c.optimizeEnabled = true ∧ c.iter < c.maxIters) := by
  unfold trainStepTrace
  split_ifs with ht h1 h2 h3 h4 <;> simp_all

/-- Helper: the structural edit appears in the iteration's trace exactly
when training is enabled and the three densification conditions hold. -/
theorem densify_mem (c : StepCfg) (checkboxSplit : Bool) :
    Event.densify ∈ trainStepTrace c checkboxSplit ↔
      (c.trainEnabled = true ∧ c.iter < c.densifyUntil ∧
       c.iter % c.densifyInterval = 0 ∧ checkboxSplit = true) := by
  unfold trainStepTrace
  split_ifs with ht h1 h2 h3 h4 <;> simp_all

/-- Helper: the control-phase section only ever turns the split checkbox
off, never on. -/
theorem controlPhase_split_true (c : StepCfg) (modeIn : ℕ) (splitIn : Bool) (sm : ModeSM)
    (h : (controlPhase c modeIn splitIn sm).checkboxSplit = true) : splitIn = true := by
  unfold controlPhase at h
  simp only at h
  split_ifs at h <;> simp_all

/-- C3 counterexample: at the final iteration (iteration = configured total)
with training enabled and the optimizer checkbox enabled (i.e. not paused),
the optimizer step does not run. -/
theorem optstep_skipped_final_iter_ce :
    (StepCfg.mk 300 300 1000 1000 0 1 [] true true false).trainEnabled = true ∧
    (StepCfg.mk 300 300 1000 1000 0 1 [] true true false).optimizeEnabled = true ∧
    Event.optStep ∉ trainStepTrace (StepCfg.mk 300 300 1000 1000 0 1 [] true true false) true := by
  refine ⟨rfl, rfl, ?_⟩
  decide

/-- C3 (amended): the optimizer step runs in an iteration if and only if the
training-enabled flag and the optimizer-step flag are both set and the
iteration is strictly below the configured total number of iterations; in
particular the final iteration skips the step even when training is not
paused. -/
theorem optimizer_step_iff (c : StepCfg) (checkboxSplit : Bool) :
    Event.optStep ∈ trainStepTrace c checkboxSplit ↔
      (c.trainEnabled = true ∧ c.optimizeEnabled = true ∧ c.iter < c.maxIters) :=
  optStep_mem c checkboxSplit

/-- C2 counterexample: in an iteration where `densify_and_prune` occurs and
the optimizer step occurs, the edit does not happen before the optimizer
step — it happens after it. -/
theorem densify_between_ce :
    Event.densify ∈ trainStepTrace (StepCfg.mk 100 30000 1000 1000 200 100 [] true true false) true ∧
    Event.optStep ∈ trainStepTrace (StepCfg.mk 100 30000 1000 1000 200 100 [] true true false) true ∧
    ¬ occursBefore Event.densify Event.optStep
        (trainStepTrace (StepCfg.mk 100 30000 1000 1000 200 100 [] true true false) true) := by
  refine ⟨by decide, by decide, fun hco => ?_⟩
  obtain ⟨-, -, h3⟩ := hco
  revert h3
  decide

/-- C2 (amended): within every iteration in which `densify_and_prune`
occurs, the edit is the final phase of the iteration: it happens strictly
after the backward pass and strictly after the optimizer step (when the step
occurs), and the optimizer's pending gradients are discarded (`zero_grad`)
immediately before the edit, so structural edits and gradient-driven
optimizer updates never interleave. -/
theorem densify_ordering (c : StepCfg) (checkboxSplit : Bool)
    (h : Event.densify ∈ trainStepTrace c checkboxSplit) :
    ∃ pre, trainStepTrace c checkboxSplit =
        pre ++ [Event.zeroGrad, Event.densify, Event.trainingSetup] ∧
      Event.backward ∈ pre ∧ Event.densify ∉ pre ∧
      (Event.optStep ∈ trainStepTrace c checkboxSplit → Event.optStep ∈ pre) := by
  obtain ⟨ht, hd1, hd2, hd3⟩ := (densify_mem c checkboxSplit).1 h
  refine ⟨[Event.backward, Event.emaUpdate, Event.report]
      ++ (if c.iter ∈ c.checkpointIters then [Event.save (chkpntPath c.iter)] else [])
      ++ [Event.statsV3, Event.statsV4]
      ++ (if c.boundaryModePos then [Event.statsEdge] else [])
      ++ (if c.optimizeEnabled = true ∧ c.iter < c.maxIters
          then [Event.optStep, Event.zeroGradNone] else [])
      ++ (if c.iter ∈ c.checkpointIters then [Event.save (chkpntPath c.iter)] else []),
    ?_, ?_, ?_, ?_⟩
  · unfold trainStepTrace
    rw [if_pos ht,
      if_pos (show c.iter < c.densifyUntil ∧ c.iter % c.densifyInterval = 0 ∧
        checkboxSplit = true from ⟨hd1, hd2, hd3⟩)]
  · simp
  · simp [List.mem_append, mem_if_nil]
  · intro ho
    obtain ⟨-, ho1, ho2⟩ := (optStep_mem c checkboxSplit).1 ho
    rw [if_pos (show c.optimizeEnabled = true ∧ c.iter < c.maxIters from ⟨ho1, ho2⟩)]
    simp

/-- Witness for `densify_ordering` at a concrete iteration where the edit
fires. -/
theorem densify_ordering_witness :
    ∃ pre, trainStepTrace (StepCfg.mk 100 30000 1000 1000 200 100 [] true true false) true =
        pre ++ [Event.zeroGrad, Event.densify, Event.trainingSetup] ∧
      Event.backward ∈ pre ∧ Event.densify ∉ pre ∧
      (Event.optStep ∈ trainStepTrace (StepCfg.mk 100 30000 1000 1000 200 100 [] true true false) true →
        Event.optStep ∈ pre) :=
  densify_ordering (StepCfg.mk 100 30000 1000 1000 200 100 [] true true false) true (by decide)

/-- C8: `densify_and_prune` fires only when the iteration is below the
configured ceiling, is a multiple of the configured interval, and the split
checkbox (after the orchestrator's control-phase writes) is set — which
requires the externally supplied flag to have been set; and for every
iteration strictly past `fix_iters` the control phase forces the split
checkbox off. -/
theorem densify_guard (c : StepCfg) (modeIn : ℕ) (splitIn : Bool) (sm : ModeSM) :
    (c.iter > c.fixIters → (controlPhase c modeIn splitIn sm).checkboxSplit = false) ∧
    (Event.densify ∈ trainStepTrace c (controlPhase c modeIn splitIn sm).checkboxSplit →
      c.iter < c.densifyUntil ∧ c.iter % c.densifyInterval = 0 ∧
      (controlPhase c modeIn splitIn sm).checkboxSplit = true ∧ splitIn = true) := by
  constructor
  · intro hfix
    unfold controlPhase
    split_ifs <;> simp_all
  · intro h
    obtain ⟨ht, hd1, hd2, hd3⟩ := (densify_mem c _).1 h
    exact ⟨hd1, hd2, hd3, controlPhase_split_true c modeIn splitIn sm hd3⟩

/-- Witness for `densify_guard`: one config past `fix_iters` where the flag
is forced off, and one where the edit fires and all guards hold. -/
theorem densify_guard_witness :
    (controlPhase (StepCfg.mk 600 30000 1000 500 200 100 [] true true false) 1 true ⟨0⟩).checkboxSplit
        = false ∧
    ((100 : ℕ) < 200 ∧ (100 : ℕ) % 100 = 0 ∧
      (controlPhase (StepCfg.mk 100 30000 1000 500 200 100 [] true true false) 1 true ⟨0⟩).checkboxSplit
        = true ∧ true = true) :=
  ⟨(densify_guard (StepCfg.mk 600 30000 1000 500 200 100 [] true true false) 1 true ⟨0⟩).1
      (by decide),
   (densify_guard (StepCfg.mk 100 30000 1000 500 200 100 [] true true false) 1 true ⟨0⟩).2
      (by decide)⟩

/-- C10: at a checkpoint iteration with training enabled, the iteration's
trace contains exactly two checkpoint saves, both to the same per-iteration
path, and whenever the optimizer step occurs it falls strictly between the
two saves, so the file that survives is the one written after the step. -/
theorem checkpoint_saved_twice (c : StepCfg) (checkboxSplit : Bool)
    (ht : c.trainEnabled = true) (hc : c.iter ∈ c.checkpointIters) :
    (trainStepTrace c checkboxSplit).filter isSaveEvent =
      [Event.save (chkpntPath c.iter), Event.save (chkpntPath c.iter)] ∧
    (Event.optStep ∈ trainStepTrace c checkboxSplit →
      ∃ pre mid post,
        trainStepTrace c checkboxSplit =
          pre ++ [Event.save (chkpntPath c.iter)] ++ mid
              ++ [Event.save (chkpntPath c.iter)] ++ post ∧
        Event.optStep ∈ mid ∧ post.filter isSaveEvent = []) := by
  constructor
  · unfold trainStepTrace
    rw [if_pos ht, if_pos hc]
    simp only [List.filter_append]
    split_ifs <;> simp [isSaveEvent]
  · intro ho
    obtain ⟨-, ho1, ho2⟩ := (optStep_mem c checkboxSplit).1 ho
    refine ⟨[Event.backward, Event.emaUpdate, Event.report],
      [Event.statsV3, Event.statsV4]
        ++ (if c.boundaryModePos then [Event.statsEdge] else [])
        ++ [Event.optStep, Event.zeroGradNone],
      (if c.iter < c.densifyUntil ∧ c.iter % c.densifyInterval = 0 ∧ checkboxSplit = true
          then [Event.zeroGrad, Event.densify, Event.trainingSetup] else []),
      ?_, ?_, ?_⟩
    · unfold trainStepTrace
      rw [if_pos ht, if_pos hc,
        if_pos (show c.optimizeEnabled = true ∧ c.iter < c.maxIters from ⟨ho1, ho2⟩)]
      simp [List.append_assoc]
    · simp
    · split_ifs <;> simp [isSaveEvent]

/-- Witness for `checkpoint_saved_twice` at iteration 3000 of the default
checkpoint list, with the optimizer step enabled. -/
theorem checkpoint_saved_twice_witness :
    (trainStepTrace (StepCfg.mk 3000 30000 20000 25000 15000 100 [3000, 7000] true true false) false).filter
        isSaveEvent =
      [Event.save (chkpntPath 3000), Event.save (chkpntPath 3000)] ∧
    (Event.optStep ∈
        trainStepTrace (StepCfg.mk 3000 30000 20000 25000 15000 100 [3000, 7000] true true false) false →
      ∃ pre mid post,
        trainStepTrace (StepCfg.mk 3000 30000 20000 25000 15000 100 [3000, 7000] true true false) false =
          pre ++ [Event.save (chkpntPath 3000)] ++ mid
              ++ [Event.save (chkpntPath 3000)] ++ post ∧
        Event.optStep ∈ mid ∧ post.filter isSaveEvent = []) :=
  checkpoint_saved_twice (StepCfg.mk 3000 30000 20000 25000 15000 100 [3000, 7000] true true false)
    false rfl (by decide)

end BGTriangle
